import Mathlib

/-! # Process supervisor (`src/daemon/daemon.cpp`)

A shallow embedding of the watchdog daemon: self-location of the running
binary, derivation of the target paths, the double-fork `daemonize()`, the
`/proc` liveness probe, the launcher and the monitoring loop of `main`.

The operating system is an explicit oracle: every value a system call hands
back is a field of a record, so that each function of the source becomes a
total, executable Lean function of those answers.
-/

namespace Daemon

/-! ## Configuration block -/

/-- The two build configurations selected by `#ifdef _WIN32`. -/
inductive Platform
  | linux
  | windows
  deriving DecidableEq, Repr

/-- The constant `TARGET_PROCESS_NAME` of the configuration block. -/
def TARGET_PROCESS_NAME : Platform → String
  | .linux => "gn1"
  | .windows => "UnitTestFoo.exe"

/-- The constant `TARGET_LIB_DIR_NAME`. -/
def TARGET_LIB_DIR_NAME : String := "lib"

/-- The constant `CHECK_INTERVAL_SECONDS`. -/
def CHECK_INTERVAL_SECONDS : Nat := 5

/-! ## Observable events -/

/-- What a process does that an observer can see: the calls `main` makes and
the output and commands issued inside them. -/
inductive Event
  | stdout (line : String)
  | stderr (line : String)
  | daemonize
  | isProcessRunning (processName : String) (result : Bool)
  | startProcess (processName : String)
  | system (cmd : String) (cwd : String)
  | createProcess (commandLine : String)
  | sleep_for (seconds : Nat)
  deriving DecidableEq, Repr

/-! ## Liveness probe (Linux) -/

/-- One `readdir` result of `/proc`: the entry name and, when
`/proc/<d_name>/comm` can be opened, the bytes of that file. -/
structure DirEntry where
  d_name : String
  comm : Option String
  deriving DecidableEq, Repr

/-- The test `std::all_of(pid_str.begin(), pid_str.end(), ::isdigit)`. -/
def allDigits (pid_str : String) : Bool :=
  pid_str.data.all Char.isDigit

/-- The call `std::getline(comm_file, name)`: the bytes before the first
newline. -/
def getline (content : String) : String :=
  ⟨content.data.takeWhile (fun c => c != '\n')⟩

/-- The `while ((entry = readdir(dir)) != nullptr)` loop of
`isProcessRunning`, with its `break` on the first match. -/
def scanProc (processName : String) : List DirEntry → Bool
  | [] => false
  | entry :: rest =>
    if allDigits entry.d_name then
      match entry.comm with
      | some content =>
        if getline content = processName then true
        else scanProc processName rest
      | none => scanProc processName rest
    else scanProc processName rest

/-- The function `isProcessRunning` on Linux. `proc` is `none` when
`opendir("/proc")` returns `nullptr`; the second component is what
`perror` writes (its prefix, without the text of `errno`). -/
def isProcessRunning (proc : Option (List DirEntry)) (processName : String) :
    Bool × List Event :=
  match proc with
  | none => (false, [Event.stderr "Failed to open /proc"])
  | some entries => (scanProc processName entries, [])

/-- A process record of the table: an entry of `/proc` named by a process id
whose `comm` file is readable; its short command name is the first line of
that file. -/
def DirEntry.shortName (entry : DirEntry) : Option String :=
  if allDigits entry.d_name then entry.comm.map getline else none

/-! ## Liveness probe (Windows) -/

/-- ASCII lower-casing of one name, as `_stricmp` applies it to both sides. -/
def asciiLower (s : String) : String :=
  ⟨s.data.map Char.toLower⟩

/-- The comparison `_stricmp(a, b) == 0`. -/
def stricmpEq (a b : String) : Bool :=
  decide (asciiLower a = asciiLower b)

/-- The function `isProcessRunning` under `_WIN32`. `snapshot` is `none` when
`CreateToolhelp32Snapshot` returns `INVALID_HANDLE_VALUE`; otherwise it lists
`szExeFile` of the entries that `Process32First` and `Process32Next` yield
(empty when `Process32First` fails). -/
def isProcessRunningWin (snapshot : Option (List String)) (processName : String) :
    Bool :=
  let fullProcessName := processName ++ ".exe"
  match snapshot with
  | none => false
  | some exeFiles => exeFiles.any (fun szExeFile => stricmpEq szExeFile fullProcessName)

/-! ## Launcher -/

/-- The function `startProcess(const std::string&)` on Linux. `ret` is the
value returned by `system`, `cwd` the working directory the shell inherits.
The announcement is printed twice, once before and once inside the
platform branch. -/
def startProcess (processName : String) (ret : Int) (cwd : String) : List Event :=
  [ Event.stdout ("Process " ++ processName ++ " is not running. Starting it..."),
    Event.stdout ("Process " ++ processName ++ " is not running. Starting it..."),
    Event.system ("./" ++ processName ++ " &") cwd ] ++
  (if ret = -1 then [Event.stderr ("system() failed for " ++ processName)]
   else [Event.stdout ("Process " ++ processName ++ " started.")])

/-- The function `startProcess(const std::string&)` under `_WIN32`:
`createPipeOk` and `createProcessOk` are the results of `CreatePipe` and
`CreateProcess`, `childOutput` the chunks `ReadFile` delivers. The failure
message is recorded without the number `GetLastError` supplies. -/
def startProcessWin (processName : String) (createPipeOk createProcessOk : Bool)
    (childOutput : List String) : List Event :=
  [Event.stdout ("Process " ++ processName ++ " is not running. Starting it...")] ++
  (if !createPipeOk then [Event.stderr "CreatePipe failed."]
   else
    [Event.createProcess processName] ++
    (if !createProcessOk then [Event.stderr "CreateProcess failed."]
     else childOutput.map Event.stdout))

/-! ## Processes and `daemonize()` -/

/-- The attributes of a process that `daemonize()` reads or changes. -/
structure Proc where
  pid : Nat
  sid : Nat
  pgid : Nat
  ctty : Bool
  cwd : String
  umask : Nat
  fds : List Nat
  sigchldIgnored : Bool
  sighupIgnored : Bool
  deriving DecidableEq, Repr

/-- A process is a session leader when its session id is its own pid. -/
def Proc.isSessionLeader (p : Proc) : Bool :=
  decide (p.sid = p.pid)

/-- The answers of the system calls made inside `daemonize()`: each `fork`
either fails (`none`) or creates a child with the given pid. -/
structure DaemonEnv where
  fork1 : Option Nat
  setsidOk : Bool
  fork2 : Option Nat
  chdirOk : Bool
  openMax : Int

/-- How one process leaves `daemonize()`: through `exit(status)` or by
returning to the caller. -/
inductive Daemonized
  | exited (p : Proc) (status : Nat)
  | returned (p : Proc)
  deriving DecidableEq, Repr

/-- The child that a successful `fork` creates: a copy of the parent under a
new pid. -/
def forkChild (parent : Proc) (childPid : Nat) : Proc :=
  { parent with pid := childPid }

/-- A successful `setsid()`: the caller leads a new session and process group
and has no controlling terminal. -/
def setsid (p : Proc) : Proc :=
  { p with sid := p.pid, pgid := p.pid, ctty := false }

/-- The loop `for (int x = sysconf(_SC_OPEN_MAX); x >= 0; x--) close(x);`. -/
def closeAll (openMax : Int) (fds : List Nat) : List Nat :=
  fds.filter (fun fd => decide (openMax < (fd : Int)))

/-- The intermediate child once `setsid()` and the two `signal` calls are
done: leader of a new session, ignoring `SIGCHLD` and `SIGHUP`. -/
def sessionLeader (p : Proc) (pid1 : Nat) : Proc :=
  { setsid (forkChild p pid1) with sigchldIgnored := true, sighupIgnored := true }

/-- The grandchild at the end of `daemonize()`: after `umask(0)`, the
unchecked `chdir("/")` and the descriptor-closing loop. -/
def daemonProc (env : DaemonEnv) (leader : Proc) (pid2 : Nat) : Proc :=
  { forkChild leader pid2 with
    umask := 0
    cwd := if env.chdirOk then "/" else leader.cwd
    fds := closeAll env.openMax leader.fds }

/-- The function `daemonize()`, followed through every process it involves:
the caller, the intermediate child and the grandchild. -/
def daemonize (env : DaemonEnv) (p : Proc) : List Daemonized :=
  match env.fork1 with
  | none => [Daemonized.exited p 1]
  | some pid1 =>
    if !env.setsidOk then
      [Daemonized.exited p 0, Daemonized.exited (forkChild p pid1) 1]
    else
      match env.fork2 with
      | none => [Daemonized.exited p 0, Daemonized.exited (sessionLeader p pid1) 1]
      | some pid2 =>
        [Daemonized.exited p 0, Daemonized.exited (sessionLeader p pid1) 0,
          Daemonized.returned (daemonProc env (sessionLeader p pid1) pid2)]

/-! ## Self location and path derivation -/

/-- The answers of the operating system and the C library that `main` uses
before it enters its loop. `readlink` is `none` when
`readlink("/proc/self/exe", ...)` returns `-1`, and otherwise holds the bytes
it wrote; `realpath` is `none` when `realpath(argv0, NULL)` returns `NULL`;
`dirname` is the C library function of that name; `splitpath` gives the drive
and directory parts that `_splitpath_s` extracts. -/
structure Os where
  readlink : Option String
  realpath : String → Option String
  dirname : String → String
  splitpath : String → String × String
  daemon : DaemonEnv

/-- The function `get_executable_path` on Linux. `argv0` is `none` for a null
`argv[0]`, on which `realpath` fails. -/
def get_executable_path (os : Os) (argv0 : Option String) : String :=
  match os.readlink with
  | some result => result
  | none =>
    match argv0.bind os.realpath with
    | some real_path => real_path
    | none => ""

/-- The local `exe_dir` of `main`. -/
def exe_dir (os : Os) : Platform → String → String
  | .linux, exe_path => os.dirname exe_path ++ "/"
  | .windows, exe_path => (os.splitpath exe_path).1 ++ (os.splitpath exe_path).2

/-- The global `g_process_full_path` as `main` assigns it. -/
def g_process_full_path (os : Os) : Platform → String → String
  | .linux, exe_path => exe_dir os .linux exe_path ++ TARGET_PROCESS_NAME .linux
  | .windows, exe_path =>
    exe_dir os .windows exe_path ++ TARGET_PROCESS_NAME .windows ++ ".exe"

/-- The global `g_process_lib_path` as `main` assigns it. -/
def g_process_lib_path (os : Os) (platform : Platform) (exe_path : String) : String :=
  exe_dir os platform exe_path ++ TARGET_LIB_DIR_NAME

/-- The suffix that the platform branch of `main` appends to the target name. -/
def exeSuffix : Platform → String
  | .linux => ""
  | .windows => ".exe"

/-! ## The monitoring loop and `main` -/

/-- What the operating system answers during one iteration of the loop: the
state of `/proc` when the probe runs and the value `system` returns if the
launcher runs. -/
structure Tick where
  proc : Option (List DirEntry)
  systemRet : Int

/-- One iteration of `while (true)` in `main`, started at simulated time
`clock` in working directory `cwd`; every event is stamped with `clock`. -/
def loopIteration (cwd : String) (clock : Nat) (tick : Tick) : List (Nat × Event) :=
  let probe := isProcessRunning tick.proc (TARGET_PROCESS_NAME .linux)
  (probe.2 ++ [Event.isProcessRunning (TARGET_PROCESS_NAME .linux) probe.1] ++
    (if !probe.1 then
      Event.startProcess (TARGET_PROCESS_NAME .linux) ::
        startProcess (TARGET_PROCESS_NAME .linux) tick.systemRet cwd
     else []) ++
    [Event.sleep_for CHECK_INTERVAL_SECONDS]).map (fun e => (clock, e))

/-- The loop of `main` over the iterations the environment describes; the
clock advances only in `sleep_for`. -/
def monitor (cwd : String) : Nat → List Tick → List (Nat × Event)
  | _, [] => []
  | clock, tick :: rest =>
    loopIteration cwd clock tick ++ monitor cwd (clock + CHECK_INTERVAL_SECONDS) rest

/-- The record of one process of a run of `main`: its final attributes, the
values of the two path globals, its time-stamped events, and its exit status
(`none` while it is still inside the loop). -/
structure Run where
  proc : Proc
  full_path : String
  lib_path : String
  trace : List (Nat × Event)
  status : Option Nat
  deriving DecidableEq, Repr

/-- The message `main` prints when the executable path is empty. -/
def fatalMessage : String := "Fatal: Could not determine executable path."

/-- The test `argc <= 1 || std::string(argv[1]) != "--no-daemon"` that guards
the call of `daemonize()`. -/
def wantsDaemon (argv : List String) : Bool :=
  decide (argv.length ≤ 1) || decide (argv.getD 1 "" ≠ "--no-daemon")

/-- The process that leaves `main` through `return 1`. -/
def fatalRun (p0 : Proc) : Run :=
  { proc := p0, full_path := "", lib_path := "",
    trace := [(0, Event.stderr fatalMessage)], status := some 1 }

/-- The process that enters the loop without daemonizing. -/
def foregroundRun (full lib : String) (p0 : Proc) (ticks : List Tick) : Run :=
  { proc := p0, full_path := full, lib_path := lib,
    trace := monitor p0.cwd 0 ticks, status := none }

/-- What a process that ran inside `daemonize()` does next: one that called
`exit` is over, the one that returned enters the loop. -/
def afterDaemonize (full lib : String) (ticks : List Tick) : Daemonized → Run
  | Daemonized.exited p status =>
    { proc := p, full_path := full, lib_path := lib,
      trace := [(0, Event.daemonize)], status := some status }
  | Daemonized.returned p =>
    { proc := p, full_path := full, lib_path := lib,
      trace := (0, Event.daemonize) :: monitor p.cwd 0 ticks, status := none }

/-- The function `main` on Linux, for the first `ticks.length` iterations of
its loop. The result lists every process involved, the caller first. A
process that ran inside `daemonize()` has `Event.daemonize` as its first
event. -/
def main (os : Os) (argv : List String) (p0 : Proc) (ticks : List Tick) : List Run :=
  let exe_path := get_executable_path os argv.head?
  if exe_path = "" then [fatalRun p0]
  else
    let full := g_process_full_path os .linux exe_path
    let lib := g_process_lib_path os .linux exe_path
    if wantsDaemon argv then
      (daemonize os.daemon p0).map (afterDaemonize full lib ticks)
    else
      [foregroundRun full lib p0 ticks]

/-- One iteration of the loop of `main` under `_WIN32`: the same loop over
the Windows probe and launcher. -/
def loopIterationWin (clock : Nat) (snapshot : Option (List String))
    (createPipeOk createProcessOk : Bool) (childOutput : List String) :
    List (Nat × Event) :=
  let running := isProcessRunningWin snapshot (TARGET_PROCESS_NAME .windows)
  ([Event.isProcessRunning (TARGET_PROCESS_NAME .windows) running] ++
    (if !running then
      Event.startProcess (TARGET_PROCESS_NAME .windows) ::
        startProcessWin (TARGET_PROCESS_NAME .windows) createPipeOk createProcessOk
          childOutput
     else []) ++
    [Event.sleep_for CHECK_INTERVAL_SECONDS]).map (fun e => (clock, e))

/-! ## Observers -/

/-- Whether an event is a call of `system`. -/
def Event.isSystem : Event → Bool
  | Event.system _ _ => true
  | _ => false

/-- Whether some process of a run executed `daemonize()`. -/
def daemonizeInvoked (runs : List Run) : Bool :=
  runs.any (fun r => r.trace.any (fun e => e.2 == Event.daemonize))

/-- The times at which a trace records a given event. -/
def timesOf (ev : Event) (trace : List (Nat × Event)) : List Nat :=
  (trace.filter (fun e => e.2 == ev)).map (fun e => e.1)

/-- The iterations (counted from 1) in which a trace records a call of
`startProcess`: iteration `i` runs at time `(i - 1) * CHECK_INTERVAL_SECONDS`. -/
def launchIterations (trace : List (Nat × Event)) : List Nat :=
  (timesOf (Event.startProcess (TARGET_PROCESS_NAME .linux)) trace).map
    (fun t => t / CHECK_INTERVAL_SECONDS + 1)

/-- The probe results a sequence of iterations produces. -/
def probeResults (ticks : List Tick) : List Bool :=
  ticks.map (fun tick => (isProcessRunning tick.proc (TARGET_PROCESS_NAME .linux)).1)

/-- The positions (counted from `start`) of the `false` entries of a list. -/
def absentAt : Nat → List Bool → List Nat
  | _, [] => []
  | start, b :: rest => (if b then [] else [start]) ++ absentAt (start + 1) rest

/-! ## Sample environments -/

/-- The C library `dirname` as glibc computes it, on the characters of a
path. -/
def dirnameChars (path : List Char) : List Char :=
  let strip := fun (cs : List Char) => (cs.reverse.dropWhile (fun c => c == '/')).reverse
  let body := strip path
  if body = [] then
    if path = [] then ['.'] else if path.length = 2 then ['/', '/'] else ['/']
  else if !body.contains '/' then ['.']
  else
    let upTo := (body.reverse.dropWhile (fun c => c != '/')).reverse
    let dir := strip upTo
    if dir = [] then (if upTo.length = 2 then ['/', '/'] else ['/']) else dir

/-- The function `dirnameChars` on strings. -/
def posixDirname (path : String) : String := ⟨dirnameChars path.data⟩

/-- A shell process: session leader with a controlling terminal, in `/home/u`. -/
def shellProc : Proc :=
  { pid := 100, sid := 100, pgid := 100, ctty := true, cwd := "/home/u", umask := 18,
    fds := [0, 1, 2], sigchldIgnored := false, sighupIgnored := false }

/-- An environment in which every call of `daemonize()` succeeds. -/
def goodDaemonEnv : DaemonEnv :=
  { fork1 := some 101, setsidOk := true, fork2 := some 102, chdirOk := true,
    openMax := 1024 }

/-- A Linux host on which the supervisor is installed as `/opt/app/daemon`. -/
def sampleOs : Os :=
  { readlink := some "/opt/app/daemon"
    realpath := fun _ => some "/opt/app/daemon"
    dirname := posixDirname
    splitpath := fun _ => ("", "")
    daemon := goodDaemonEnv }

/-- A `/proc` in which a process named `gn1` runs as pid 42. -/
def procWithTarget : Option (List DirEntry) :=
  some [⟨"self", some "daemon\n"⟩, ⟨"1", some "init\n"⟩, ⟨"42", some "gn1\n"⟩]

/-- A `/proc` without the target. -/
def procWithoutTarget : Option (List DirEntry) :=
  some [⟨"self", some "daemon\n"⟩, ⟨"1", some "init\n"⟩]

/-- The environment `goodDaemonEnv` except that `chdir("/")` fails. -/
def chdirFailsEnv : DaemonEnv :=
  { goodDaemonEnv with chdirOk := false }

/-- A host on which neither `readlink` nor `realpath` succeeds. -/
def lostOs : Os :=
  { sampleOs with readlink := none, realpath := fun _ => none }

/-- A host on which `readlink` fails and `realpath` resolves `argv[0]`. -/
def fallbackOs : Os :=
  { sampleOs with readlink := none, realpath := fun _ => some "/srv/bin/daemon" }

/-- Four iterations whose probes answer absent, absent, present, absent. -/
def scenarioTicks : List Tick :=
  [⟨none, 0⟩, ⟨procWithoutTarget, -1⟩, ⟨procWithTarget, 0⟩, ⟨procWithoutTarget, 0⟩]

/-- Three iterations in which the target is absent and `system` fails. -/
def failingTicks : List Tick :=
  [⟨procWithoutTarget, -1⟩, ⟨none, -1⟩, ⟨procWithoutTarget, -1⟩]

/-- Iterations that produce a given sequence of probe results. -/
def ticksFor (bs : List Bool) : List Tick :=
  bs.map (fun b => if b then ⟨procWithTarget, 0⟩ else ⟨procWithoutTarget, 0⟩)

/-! ## Theorems -/

theorem scanProc_iff (processName : String) (entries : List DirEntry) :
    scanProc processName entries = true ↔
      ∃ entry ∈ entries, entry.shortName = some processName := by
  induction entries with
  | nil => simp [scanProc]
  | cons entry rest ih =>
    unfold scanProc
    cases hd : allDigits entry.d_name <;> cases hc : entry.comm <;>
      simp [DirEntry.shortName, hd, hc, ih]

theorem scanProc_of_mem (processName : String) (entries : List DirEntry)
    (entry : DirEntry) (hmem : entry ∈ entries)
    (hname : entry.shortName = some processName) :
    scanProc processName entries = true :=
  (scanProc_iff processName entries).mpr ⟨entry, hmem, hname⟩

/-- C1: `isProcessRunning(N)` is true exactly when `/proc` can be opened and
some process record (a pid-named entry with a readable `comm`) has short
command name equal to `N`, byte for byte; when `/proc` cannot be opened the
answer is `false` for every `N`; and a table with a matching record answers
like the table holding that record alone, however many other records match. -/
theorem isProcessRunning_true_iff (proc : Option (List DirEntry)) (N : String) :
    ((isProcessRunning proc N).1 = true ↔
        ∃ entries, proc = some entries ∧
          ∃ entry ∈ entries, entry.shortName = some N) ∧
      (isProcessRunning none N).1 = false ∧
      (∀ (before after : List DirEntry) (entry : DirEntry),
        entry.shortName = some N →
          isProcessRunning (some (before ++ entry :: after)) N =
            isProcessRunning (some [entry]) N) := by
  refine ⟨?_, rfl, ?_⟩
  · cases proc with
    | none => simp [isProcessRunning]
    | some entries => simp [isProcessRunning, scanProc_iff]
  · intro before after entry hname
    have h1 : scanProc N (before ++ entry :: after) = true :=
      scanProc_of_mem N _ entry (by simp) hname
    have h2 : scanProc N [entry] = true :=
      scanProc_of_mem N _ entry (by simp) hname
    simp [isProcessRunning, h1, h2]

/-- C1, at a concrete table: the record of pid 42 named `gn1` is found, and
the name differing only in case is not. -/
theorem isProcessRunning_true_iff_witness :
    (isProcessRunning procWithTarget "gn1").1 = true ∧
      (isProcessRunning procWithTarget "GN1").1 = false ∧
      ∃ entries, procWithTarget = some entries ∧
        ∃ entry ∈ entries, entry.shortName = some "gn1" :=
  ⟨by decide, by decide,
    (isProcessRunning_true_iff procWithTarget "gn1").1.mp (by decide)⟩

/-! ### `daemonize()` -/

theorem exists_returned_iff (env : DaemonEnv) (p : Proc) :
    (∃ q, Daemonized.returned q ∈ daemonize env p) ↔
      env.fork1.isSome = true ∧ env.setsidOk = true ∧ env.fork2.isSome = true := by
  cases h1 : env.fork1 <;> cases h2 : env.setsidOk <;> cases h3 : env.fork2 <;>
    simp [daemonize, h1, h2, h3]

/-! ### Startup of `main` -/

theorem wantsDaemon_iff (argv : List String) :
    wantsDaemon argv = true ↔ argv[1]? ≠ some "--no-daemon" := by
  rcases argv with _ | ⟨a0, _ | ⟨a1, rest⟩⟩ <;> simp [wantsDaemon]

theorem main_of_fatal (os : Os) (argv : List String) (p0 : Proc) (ticks : List Tick)
    (h : get_executable_path os argv.head? = "") :
    main os argv p0 ticks = [fatalRun p0] := by
  simp [main, h]

theorem main_of_daemon (os : Os) (argv : List String) (p0 : Proc) (ticks : List Tick)
    (h : get_executable_path os argv.head? ≠ "") (hd : wantsDaemon argv = true) :
    main os argv p0 ticks =
      (daemonize os.daemon p0).map
        (afterDaemonize (g_process_full_path os .linux (get_executable_path os argv.head?))
          (g_process_lib_path os .linux (get_executable_path os argv.head?)) ticks) := by
  simp [main, h, hd]

theorem main_of_foreground (os : Os) (argv : List String) (p0 : Proc)
    (ticks : List Tick) (h : get_executable_path os argv.head? ≠ "")
    (hd : wantsDaemon argv = false) :
    main os argv p0 ticks =
      [foregroundRun (g_process_full_path os .linux (get_executable_path os argv.head?))
        (g_process_lib_path os .linux (get_executable_path os argv.head?)) p0 ticks] := by
  simp [main, h, hd]

theorem daemonize_ne_nil (env : DaemonEnv) (p : Proc) : daemonize env p ≠ [] := by
  unfold daemonize
  cases env.fork1 <;> cases env.setsidOk <;> cases env.fork2 <;> simp

theorem afterDaemonize_trace_mem (full lib : String) (ticks : List Tick)
    (d : Daemonized) :
    (0, Event.daemonize) ∈ (afterDaemonize full lib ticks d).trace := by
  cases d <;> simp [afterDaemonize]

theorem isProcessRunning_cases (proc : Option (List DirEntry)) (N : String) :
    isProcessRunning proc N = (false, [Event.stderr "Failed to open /proc"]) ∨
      ∃ b, isProcessRunning proc N = (b, []) := by
  cases proc with
  | none => exact Or.inl rfl
  | some entries => exact Or.inr ⟨_, rfl⟩

/-- Every event of one iteration carries the iteration's clock and is one of
the eight events the loop body can produce. -/
theorem mem_loopIteration (cwd : String) (clock : Nat) (tick : Tick)
    (e : Nat × Event) (he : e ∈ loopIteration cwd clock tick) :
    e.1 = clock ∧
      (e.2 = Event.stderr "Failed to open /proc" ∨
        (∃ b, e.2 = Event.isProcessRunning "gn1" b) ∨
        e.2 = Event.startProcess "gn1" ∨
        e.2 = Event.stdout "Process gn1 is not running. Starting it..." ∨
        e.2 = Event.system "./gn1 &" cwd ∨
        e.2 = Event.stderr "system() failed for gn1" ∨
        e.2 = Event.stdout "Process gn1 started." ∨
        e.2 = Event.sleep_for 5) := by
  simp only [loopIteration, List.mem_map] at he
  obtain ⟨ev, hev, rfl⟩ := he
  refine ⟨rfl, ?_⟩
  have hname : TARGET_PROCESS_NAME Platform.linux = "gn1" := rfl
  have h1 : "Process " ++ "gn1" ++ " is not running. Starting it..." =
      "Process gn1 is not running. Starting it..." := by decide
  have h2 : "./" ++ "gn1" ++ " &" = "./gn1 &" := by decide
  have h3 : "system() failed for " ++ "gn1" = "system() failed for gn1" := by decide
  have h4 : "Process " ++ "gn1" ++ " started." = "Process gn1 started." := by decide
  rw [hname] at hev
  rcases isProcessRunning_cases tick.proc "gn1" with h | ⟨b, h⟩
  · rw [h] at hev
    by_cases hret : tick.systemRet = -1 <;>
      simp [startProcess, hret, h1, h2, h3, h4, CHECK_INTERVAL_SECONDS] at hev ⊢ <;>
      rcases hev with h | h | h | h | h | h | h | h <;> simp [h]
  · rw [h] at hev
    cases b <;> by_cases hret : tick.systemRet = -1 <;>
      simp [startProcess, hret, h1, h2, h3, h4, CHECK_INTERVAL_SECONDS] at hev ⊢ <;>
      (try rcases hev with h | h | h | h | h | h | h) <;> simp [h]

theorem mem_monitor (cwd : String) (ticks : List Tick) :
    ∀ (clock : Nat) (e : Nat × Event), e ∈ monitor cwd clock ticks →
      ∃ tick ∈ ticks, ∃ c, e ∈ loopIteration cwd c tick := by
  induction ticks with
  | nil => intro clock e he; simp [monitor] at he
  | cons tick rest ih =>
    intro clock e he
    simp only [monitor, List.mem_append] at he
    rcases he with he | he
    · exact ⟨tick, by simp, clock, he⟩
    · obtain ⟨t, ht, c, hc⟩ := ih _ e he
      exact ⟨t, by simp [ht], c, hc⟩

theorem monitor_ne_daemonize (cwd : String) (clock : Nat) (ticks : List Tick)
    (e : Nat × Event) (he : e ∈ monitor cwd clock ticks) : e.2 ≠ Event.daemonize := by
  obtain ⟨tick, _, c, hc⟩ := mem_monitor cwd ticks clock e he
  have h := (mem_loopIteration cwd c tick e hc).2
  rcases h with h | ⟨b, h⟩ | h | h | h | h | h | h <;> simp [h]

/-- C4: provided a successful `readlink` or `realpath` hands back a non-empty
path, `main` ends with status 1 having done nothing but print the fatal
message (no `daemonize()`, no probe, no launch) exactly when `readlink` of
`/proc/self/exe` and `realpath` of `argv[0]` both fail; a successful
`readlink` gives the self path, and when it fails a successful `realpath`
gives the self path and `main` goes on. -/
theorem main_fatal_iff (os : Os) (argv : List String) (p0 : Proc) (ticks : List Tick)
    (hreadlink : ∀ r, os.readlink = some r → r ≠ "")
    (hrealpath : ∀ a r, os.realpath a = some r → r ≠ "") :
    (main os argv p0 ticks = [fatalRun p0] ↔
        os.readlink = none ∧ argv.head?.bind os.realpath = none) ∧
      ((∃ r ∈ main os argv p0 ticks, r.status = some 1 ∧
          ∀ e ∈ r.trace, e.2 ≠ Event.daemonize) ↔
        os.readlink = none ∧ argv.head?.bind os.realpath = none) ∧
      (∀ r, os.readlink = some r → get_executable_path os argv.head? = r) ∧
      (∀ r, os.readlink = none → argv.head?.bind os.realpath = some r →
        get_executable_path os argv.head? = r ∧
          ∀ run ∈ main os argv p0 ticks,
            run.full_path = os.dirname r ++ "/" ++ "gn1" ∧
              (run.status = none ∨ (0, Event.daemonize) ∈ run.trace)) := by
  have hpath : get_executable_path os argv.head? = "" ↔
      os.readlink = none ∧ argv.head?.bind os.realpath = none := by
    unfold get_executable_path
    cases h1 : os.readlink with
    | some r => simpa using hreadlink r h1
    | none =>
      cases h2 : argv.head?.bind os.realpath with
      | none => simp
      | some q =>
        cases h3 : argv.head? with
        | none => simp [h3] at h2
        | some a =>
          simp only [h3, Option.some_bind] at h2
          simpa using hrealpath a q h2
  have hruns : ∀ run ∈ main os argv p0 ticks,
      get_executable_path os argv.head? ≠ "" →
        run.full_path =
            os.dirname (get_executable_path os argv.head?) ++ "/" ++ "gn1" ∧
          (run.status = none ∨ (0, Event.daemonize) ∈ run.trace) := by
    intro run hrun hne
    cases hd : wantsDaemon argv with
    | true =>
      rw [main_of_daemon os argv p0 ticks hne hd, List.mem_map] at hrun
      obtain ⟨d, _, rfl⟩ := hrun
      refine ⟨?_, Or.inr (afterDaemonize_trace_mem _ _ _ d)⟩
      cases d <;> rfl
    | false =>
      rw [main_of_foreground os argv p0 ticks hne hd, List.mem_singleton] at hrun
      subst hrun
      exact ⟨rfl, Or.inl rfl⟩
  refine ⟨?_, ?_, ?_, ?_⟩
  · constructor
    · intro hmain
      by_contra hboth
      have hne : get_executable_path os argv.head? ≠ "" := fun h => hboth (hpath.mp h)
      have h := hruns (fatalRun p0) (by rw [hmain]; simp) hne
      rcases h.2 with h | h
      · simp [fatalRun] at h
      · simp [fatalRun] at h
    · intro hboth
      exact main_of_fatal os argv p0 ticks (hpath.mpr hboth)
  · constructor
    · rintro ⟨r, hr, hstatus, htrace⟩
      by_contra hboth
      have hne : get_executable_path os argv.head? ≠ "" := fun h => hboth (hpath.mp h)
      rcases (hruns r hr hne).2 with h | h
      · simp [h] at hstatus
      · exact htrace _ h rfl
    · intro hboth
      rw [main_of_fatal os argv p0 ticks (hpath.mpr hboth)]
      exact ⟨fatalRun p0, by simp, rfl, by simp [fatalRun]⟩
  · intro r hr
    simp [get_executable_path, hr]
  · intro r h1 h2
    have hexe : get_executable_path os argv.head? = r := by
      simp [get_executable_path, h1, h2]
    have hne : get_executable_path os argv.head? ≠ "" := by
      intro h
      have := (hpath.mp h).2
      simp [h2] at this
    refine ⟨hexe, fun run hrun => ?_⟩
    have := hruns run hrun hne
    rwa [hexe] at this

/-- C4, on a host where `readlink` fails and `realpath` answers
`/srv/bin/daemon`: that is the self path and the target lies next to it. -/
theorem main_fatal_iff_witness :
    get_executable_path fallbackOs (["./daemon"] : List String).head? = "/srv/bin/daemon" ∧
      ∀ run ∈ main fallbackOs ["./daemon"] shellProc scenarioTicks,
        run.full_path = fallbackOs.dirname "/srv/bin/daemon" ++ "/" ++ "gn1" ∧
          (run.status = none ∨ (0, Event.daemonize) ∈ run.trace) :=
  (main_fatal_iff fallbackOs ["./daemon"] shellProc scenarioTicks
    (by intro r h; cases h) (by intro a r h; cases h; decide)).2.2.2
    "/srv/bin/daemon" rfl rfl

theorem daemonizeInvoked_main (os : Os) (argv : List String) (p0 : Proc)
    (ticks : List Tick) (h : get_executable_path os argv.head? ≠ "") :
    daemonizeInvoked (main os argv p0 ticks) = wantsDaemon argv := by
  cases hd : wantsDaemon argv with
  | true =>
    rw [main_of_daemon os argv p0 ticks h hd]
    obtain ⟨d, rest, hdr⟩ := List.exists_cons_of_ne_nil (daemonize_ne_nil os.daemon p0)
    rw [hdr]
    simp only [daemonizeInvoked, List.map_cons, List.any_cons, Bool.or_eq_true,
      List.any_eq_true]
    exact Or.inl ⟨_, afterDaemonize_trace_mem _ _ _ d, by simp⟩
  | false =>
    rw [main_of_foreground os argv p0 ticks h hd]
    simp only [daemonizeInvoked, foregroundRun, List.any_cons, List.any_nil,
      Bool.or_false, List.any_eq_false]
    intro e he
    simpa using monitor_ne_daemonize _ _ _ e he

/-- C5, as stated, fails: with `--no-daemon` as the second argument after the
program name it is present in the argument vector, yet `daemonize()` runs. -/
theorem no_daemon_flag_later_position_daemonizes :
    "--no-daemon" ∈ ["daemon", "-v", "--no-daemon"] ∧
      daemonizeInvoked
        (main sampleOs ["daemon", "-v", "--no-daemon"] shellProc scenarioTicks) = true := by
  decide

/-- C5, amended: once the self path is resolved, `daemonize()` is skipped
exactly when the first argument after the program name, `argv[1]`, is
`--no-daemon`; in particular it runs when no argument is given and when
`--no-daemon` stands at a later position. -/
theorem daemonize_skipped_iff (os : Os) (argv : List String) (p0 : Proc)
    (ticks : List Tick) (h : get_executable_path os argv.head? ≠ "") :
    (daemonizeInvoked (main os argv p0 ticks) = false ↔
        argv[1]? = some "--no-daemon") ∧
      (argv.length ≤ 1 → daemonizeInvoked (main os argv p0 ticks) = true) := by
  rw [daemonizeInvoked_main os argv p0 ticks h]
  constructor
  · rw [← Bool.not_eq_true, wantsDaemon_iff]
    simp
  · intro hlen
    rw [wantsDaemon_iff]
    rcases argv with _ | ⟨a0, _ | ⟨a1, rest⟩⟩ <;> simp at hlen ⊢

/-- C5 amended, at concrete argument vectors: `daemon --no-daemon` stays in
the foreground. -/
theorem daemonize_skipped_iff_witness :
    daemonizeInvoked (main sampleOs ["daemon", "--no-daemon"] shellProc scenarioTicks) =
      false :=
  (daemonize_skipped_iff sampleOs ["daemon", "--no-daemon"] shellProc scenarioTicks
    (by decide)).1.mpr rfl

/-! ### Path derivation -/

/-- C6: the target path is the directory of the supervisor binary, a
separator, and the target name with the platform suffix; the dependency
directory is that directory, the separator, and the library-directory name
(on Windows the directory is the drive and directory parts of the self
path). Every process of a run of `main` holds exactly these values, whatever
the working directory and the other attributes of the starting process. -/
theorem derived_paths (os : Os) (argv : List String) (p0 p0' : Proc)
    (ticks ticks' : List Tick) (h : get_executable_path os argv.head? ≠ "") :
    (∀ exe_path,
        g_process_full_path os .linux exe_path =
            os.dirname exe_path ++ "/" ++ (TARGET_PROCESS_NAME .linux ++ exeSuffix .linux) ∧
          g_process_lib_path os .linux exe_path =
            os.dirname exe_path ++ "/" ++ TARGET_LIB_DIR_NAME ∧
          g_process_full_path os .windows exe_path =
            (os.splitpath exe_path).1 ++ (os.splitpath exe_path).2 ++
              (TARGET_PROCESS_NAME .windows ++ exeSuffix .windows) ∧
          g_process_lib_path os .windows exe_path =
            (os.splitpath exe_path).1 ++ (os.splitpath exe_path).2 ++
              TARGET_LIB_DIR_NAME) ∧
      (∀ r ∈ main os argv p0 ticks,
        r.full_path =
            os.dirname (get_executable_path os argv.head?) ++ "/" ++ "gn1" ∧
          r.lib_path =
            os.dirname (get_executable_path os argv.head?) ++ "/" ++ "lib") ∧
      (∀ r ∈ main os argv p0 ticks, ∀ r' ∈ main os argv p0' ticks',
        r.full_path = r'.full_path ∧ r.lib_path = r'.lib_path) := by
  have hruns : ∀ (q : Proc) (tk : List Tick), ∀ r ∈ main os argv q tk,
      r.full_path = g_process_full_path os .linux (get_executable_path os argv.head?) ∧
        r.lib_path = g_process_lib_path os .linux (get_executable_path os argv.head?) := by
    intro q tk r hr
    cases hd : wantsDaemon argv with
    | true =>
      rw [main_of_daemon os argv q tk h hd, List.mem_map] at hr
      obtain ⟨d, _, rfl⟩ := hr
      cases d <;> exact ⟨rfl, rfl⟩
    | false =>
      rw [main_of_foreground os argv q tk h hd, List.mem_singleton] at hr
      subst hr
      exact ⟨rfl, rfl⟩
  refine ⟨fun exe_path => ⟨?_, rfl, ?_, rfl⟩, ?_, ?_⟩
  · simp [g_process_full_path, exe_dir, exeSuffix]
  · simp [g_process_full_path, exe_dir, exeSuffix, String.append_assoc]
  · intro r hr
    exact hruns p0 ticks r hr
  · intro r hr r' hr'
    have h1 := hruns p0 ticks r hr
    have h2 := hruns p0' ticks' r' hr'
    exact ⟨h1.1.trans h2.1.symm, h1.2.trans h2.2.symm⟩

/-- C6, for the supervisor installed as `/opt/app/daemon`: started from
`/home/u`, every process of the run holds `/opt/app/gn1` and `/opt/app/lib`. -/
theorem derived_paths_witness :
    (∀ r ∈ main sampleOs ["daemon"] shellProc scenarioTicks,
      r.full_path = sampleOs.dirname "/opt/app/daemon" ++ "/" ++ "gn1" ∧
        r.lib_path = sampleOs.dirname "/opt/app/daemon" ++ "/" ++ "lib") ∧
      sampleOs.dirname "/opt/app/daemon" ++ "/" ++ "gn1" = "/opt/app/gn1" ∧
      sampleOs.dirname "/opt/app/daemon" ++ "/" ++ "lib" = "/opt/app/lib" :=
  ⟨(derived_paths sampleOs ["daemon"] shellProc shellProc scenarioTicks scenarioTicks
    (by decide)).2.1, by decide, by decide⟩

/-! ### What the launcher starts -/

/-- C7, evaluated: the supervisor installed as `/opt/app/daemon` resolves the
target to `/opt/app/gn1`, yet the only command its loop issues is the
relative `./gn1 &`, run in `/` by the daemon and in `/home/u` by a
foreground supervisor started there. -/
theorem launch_command_is_relative :
    (main sampleOs ["daemon"] shellProc [⟨procWithoutTarget, 0⟩]).map
        (fun r => (r.full_path, r.trace.filter (fun e => e.2.isSystem))) =
      [("/opt/app/gn1", []), ("/opt/app/gn1", []),
        ("/opt/app/gn1", [(0, Event.system "./gn1 &" "/")])] ∧
      (main sampleOs ["daemon", "--no-daemon"] shellProc [⟨procWithoutTarget, 0⟩]).map
        (fun r => (r.full_path, r.trace.filter (fun e => e.2.isSystem))) =
      [("/opt/app/gn1", [(0, Event.system "./gn1 &" "/home/u")])] := by
  decide

/-! ### The daemon process -/

/-- C8, as stated, fails: when `chdir("/")` fails while both forks and
`setsid` succeed, `daemonize()` still returns, in the directory it was
started from. -/
theorem daemonize_returns_outside_root :
    ∃ q, Daemonized.returned q ∈ daemonize chdirFailsEnv shellProc ∧
      q.cwd = "/home/u" ∧ q.cwd ≠ "/" :=
  ⟨daemonProc chdirFailsEnv (sessionLeader shellProc 101) 102, by decide, by decide,
    by decide⟩

/-- C8, amended: whenever `daemonize()` returns, and the second `fork` gave
the grandchild a pid other than its parent's, the returning process is the
child of the second fork made after a successful `setsid`: it belongs to the
session its parent leads, is not a session leader and has no controlling
terminal; its working directory is `/` when `chdir("/")` succeeded, and the
directory of the caller otherwise. -/
theorem daemonize_returned (env : DaemonEnv) (p q : Proc)
    (hfresh : ∀ pid1 pid2, env.fork1 = some pid1 → env.fork2 = some pid2 → pid2 ≠ pid1)
    (hq : Daemonized.returned q ∈ daemonize env p) :
    (∃ pid1 pid2, env.fork1 = some pid1 ∧ env.setsidOk = true ∧
        env.fork2 = some pid2 ∧ q.pid = pid2 ∧ q.sid = pid1 ∧
        (sessionLeader p pid1).isSessionLeader = true) ∧
      q.isSessionLeader = false ∧
      q.ctty = false ∧
      (env.chdirOk = true → q.cwd = "/") ∧
      (env.chdirOk = false → q.cwd = p.cwd) := by
  cases h1 : env.fork1 with
  | none => simp [daemonize, h1] at hq
  | some pid1 =>
    cases h2 : env.setsidOk with
    | false => simp [daemonize, h1, h2] at hq
    | true =>
      cases h3 : env.fork2 with
      | none => simp [daemonize, h1, h2, h3] at hq
      | some pid2 =>
        simp [daemonize, h1, h2, h3] at hq
        subst hq
        have hne := hfresh pid1 pid2 h1 h3
        refine ⟨⟨pid1, pid2, rfl, rfl, rfl, rfl, rfl, ?_⟩, ?_, rfl, ?_, ?_⟩
        · simp [Proc.isSessionLeader, sessionLeader, setsid, forkChild]
        · simpa [Proc.isSessionLeader, daemonProc, sessionLeader, setsid, forkChild]
            using hne.symm
        · intro hc
          simp [daemonProc, hc]
        · intro hc
          simp [daemonProc, hc, sessionLeader, setsid, forkChild]

/-- C8 amended, for a shell that starts the supervisor: process 102 returns,
in session 101, without a terminal, in `/`. -/
theorem daemonize_returned_witness :
    (daemonProc goodDaemonEnv (sessionLeader shellProc 101) 102).isSessionLeader = false ∧
      (daemonProc goodDaemonEnv (sessionLeader shellProc 101) 102).ctty = false ∧
      (daemonProc goodDaemonEnv (sessionLeader shellProc 101) 102).cwd = "/" :=
  have h := daemonize_returned goodDaemonEnv shellProc
    (daemonProc goodDaemonEnv (sessionLeader shellProc 101) 102)
    (by intro pid1 pid2 h1 h2; cases h1; cases h2; decide) (by decide)
  ⟨h.2.1, h.2.2.1, h.2.2.2.1 rfl⟩

/-! ### Probe name and launched name -/

/-- C10, evaluated: on Linux the probe looks for `gn1` and the launcher runs
`./gn1`, so a started target is found; under `_WIN32` the launcher passes
`UnitTestFoo.exe` to `CreateProcess` while the probe compares against
`UnitTestFoo.exe.exe`, so a running `UnitTestFoo.exe` is reported absent and
the loop launches it again. -/
theorem probe_name_versus_launched_name :
    (isProcessRunning (some [⟨"42", some "gn1\n"⟩]) (TARGET_PROCESS_NAME .linux)).1 = true ∧
      Event.system "./gn1 &" "/" ∈ startProcess (TARGET_PROCESS_NAME .linux) 0 "/" ∧
      Event.createProcess "UnitTestFoo.exe" ∈
        startProcessWin (TARGET_PROCESS_NAME .windows) true true [] ∧
      (∀ name, isProcessRunningWin (some [name]) (TARGET_PROCESS_NAME .windows) =
        stricmpEq name "UnitTestFoo.exe.exe") ∧
      isProcessRunningWin (some ["System", "UnitTestFoo.exe"])
        (TARGET_PROCESS_NAME .windows) = false ∧
      (5, Event.createProcess "UnitTestFoo.exe") ∈
        loopIterationWin 5 (some ["System", "UnitTestFoo.exe"]) true true [] := by
  refine ⟨by decide, by decide, by decide, ?_, by decide, by decide⟩
  intro name
  have h : TARGET_PROCESS_NAME Platform.windows ++ ".exe" = "UnitTestFoo.exe.exe" := by
    decide
  simp [isProcessRunningWin, h]

/-! ### The monitoring loop -/

theorem timesOf_append (ev : Event) (l1 l2 : List (Nat × Event)) :
    timesOf ev (l1 ++ l2) = timesOf ev l1 ++ timesOf ev l2 := by
  simp [timesOf]

/-- The events of one iteration, read off the probe result and the value
`system` returns. -/
theorem loopIteration_eq (cwd : String) (clock : Nat) (tick : Tick) :
    loopIteration cwd clock tick =
      ((isProcessRunning tick.proc "gn1").2.map (fun e => (clock, e))) ++
        (clock, Event.isProcessRunning "gn1" (isProcessRunning tick.proc "gn1").1) ::
        ((if (isProcessRunning tick.proc "gn1").1 = true then []
          else
            [(clock, Event.startProcess "gn1"),
              (clock, Event.stdout "Process gn1 is not running. Starting it..."),
              (clock, Event.stdout "Process gn1 is not running. Starting it..."),
              (clock, Event.system "./gn1 &" cwd),
              (clock, if tick.systemRet = -1 then Event.stderr "system() failed for gn1"
                else Event.stdout "Process gn1 started.")]) ++
          [(clock, Event.sleep_for 5)]) := by
  have hname : TARGET_PROCESS_NAME Platform.linux = "gn1" := rfl
  have h1 : "Process " ++ "gn1" ++ " is not running. Starting it..." =
      "Process gn1 is not running. Starting it..." := by decide
  have h2 : "./" ++ "gn1" ++ " &" = "./gn1 &" := by decide
  have h3 : "system() failed for " ++ "gn1" = "system() failed for gn1" := by decide
  have h4 : "Process " ++ "gn1" ++ " started." = "Process gn1 started." := by decide
  simp only [loopIteration, hname, startProcess, h1, h2, h3, h4, CHECK_INTERVAL_SECONDS]
  cases (isProcessRunning tick.proc "gn1").1 <;>
    by_cases hret : tick.systemRet = -1 <;> simp [hret]

theorem timesOf_probe_log (ev : Event) (clock : Nat) (proc : Option (List DirEntry))
    (hev : ev ≠ Event.stderr "Failed to open /proc") :
    timesOf ev ((isProcessRunning proc "gn1").2.map (fun e => (clock, e))) = [] := by
  rcases isProcessRunning_cases proc "gn1" with h | ⟨b, h⟩
  · simp [h, timesOf, Ne.symm hev]
  · simp [h, timesOf]

theorem timesOf_startProcess_loopIteration (cwd : String) (clock : Nat) (tick : Tick) :
    timesOf (Event.startProcess "gn1") (loopIteration cwd clock tick) =
      if (isProcessRunning tick.proc "gn1").1 = true then [] else [clock] := by
  rw [loopIteration_eq, timesOf_append, timesOf_probe_log _ _ _ (by simp)]
  cases (isProcessRunning tick.proc "gn1").1 <;>
    by_cases hret : tick.systemRet = -1 <;> simp [timesOf, hret]

theorem timesOf_sleep_loopIteration (cwd : String) (clock : Nat) (tick : Tick) :
    timesOf (Event.sleep_for 5) (loopIteration cwd clock tick) = [clock] := by
  rw [loopIteration_eq, timesOf_append, timesOf_probe_log _ _ _ (by simp)]
  cases (isProcessRunning tick.proc "gn1").1 <;>
    by_cases hret : tick.systemRet = -1 <;> simp [timesOf, hret]

theorem timesOf_absent_loopIteration (cwd : String) (clock : Nat) (tick : Tick) :
    timesOf (Event.isProcessRunning "gn1" false) (loopIteration cwd clock tick) =
      if (isProcessRunning tick.proc "gn1").1 = true then [] else [clock] := by
  rw [loopIteration_eq, timesOf_append, timesOf_probe_log _ _ _ (by simp)]
  cases (isProcessRunning tick.proc "gn1").1 <;>
    by_cases hret : tick.systemRet = -1 <;> simp [timesOf, hret]

theorem timesOf_system_loopIteration (cwd : String) (clock : Nat) (tick : Tick) :
    timesOf (Event.system "./gn1 &" cwd) (loopIteration cwd clock tick) =
      if (isProcessRunning tick.proc "gn1").1 = true then [] else [clock] := by
  rw [loopIteration_eq, timesOf_append, timesOf_probe_log _ _ _ (by simp)]
  cases (isProcessRunning tick.proc "gn1").1 <;>
    by_cases hret : tick.systemRet = -1 <;> simp [timesOf, hret]

theorem timesOf_failure_loopIteration (cwd : String) (clock : Nat) (tick : Tick) :
    timesOf (Event.stderr "system() failed for gn1") (loopIteration cwd clock tick) =
      if (isProcessRunning tick.proc "gn1").1 = false ∧ tick.systemRet = -1 then [clock]
      else [] := by
  rw [loopIteration_eq, timesOf_append, timesOf_probe_log _ _ _ (by decide)]
  cases (isProcessRunning tick.proc "gn1").1 <;>
    by_cases hret : tick.systemRet = -1 <;> simp [timesOf, hret]

/-- An event that every iteration of a run produces exactly once occurs at
the times `clock`, `clock + 5`, `clock + 10`, ... -/
theorem timesOf_monitor_every (ev : Event) (cwd : String) (ticks : List Tick)
    (hall : ∀ tick ∈ ticks, ∀ clock, timesOf ev (loopIteration cwd clock tick) = [clock]) :
    ∀ clock, timesOf ev (monitor cwd clock ticks) =
      (List.range ticks.length).map (fun i => clock + CHECK_INTERVAL_SECONDS * i) := by
  induction ticks with
  | nil => intro clock; simp [monitor, timesOf]
  | cons tick rest ih =>
    intro clock
    have hrest : ∀ t ∈ rest, ∀ c, timesOf ev (loopIteration cwd c t) = [c] :=
      fun t ht c => hall t (by simp [ht]) c
    rw [monitor, timesOf_append, hall tick (by simp) clock, ih hrest,
      List.length_cons, List.range_succ_eq_map]
    simp only [List.map_cons, List.map_map, Nat.mul_zero, Nat.add_zero,
      List.singleton_append, List.cons.injEq, true_and]
    apply List.map_congr_left
    intro i _
    simp only [Function.comp, CHECK_INTERVAL_SECONDS]
    omega

theorem launchIterations_monitor (cwd : String) (ticks : List Tick) :
    ∀ k, launchIterations (monitor cwd (CHECK_INTERVAL_SECONDS * k) ticks) =
      absentAt (k + 1) (probeResults ticks) := by
  induction ticks with
  | nil => intro k; simp [monitor, launchIterations, timesOf, probeResults, absentAt]
  | cons tick rest ih =>
    intro k
    have hstep : CHECK_INTERVAL_SECONDS * k + CHECK_INTERVAL_SECONDS =
        CHECK_INTERVAL_SECONDS * (k + 1) := by
      simp only [CHECK_INTERVAL_SECONDS]; omega
    have hih := ih (k + 1)
    simp only [launchIterations] at hih ⊢
    have hname : TARGET_PROCESS_NAME Platform.linux = "gn1" := rfl
    rw [hname] at hih ⊢
    rw [monitor, hstep, timesOf_append, List.map_append, hih,
      timesOf_startProcess_loopIteration]
    simp only [probeResults, List.map_cons, absentAt, hname]
    cases (isProcessRunning tick.proc "gn1").1 <;> simp [CHECK_INTERVAL_SECONDS]

theorem mem_absentAt (bs : List Bool) :
    ∀ start k, k ∈ absentAt start bs ↔ ∃ i, k = start + i ∧ bs[i]? = some false := by
  induction bs with
  | nil => intro start k; simp [absentAt]
  | cons b rest ih =>
    intro start k
    simp only [absentAt, List.mem_append, ih]
    constructor
    · rintro (h | ⟨i, rfl, hi⟩)
      · cases b <;> simp at h
        exact ⟨0, by simp [h]⟩
      · exact ⟨i + 1, by omega, by simpa using hi⟩
    · rintro ⟨i, rfl, hi⟩
      cases i with
      | zero =>
        left
        simp at hi
        simp [hi]
      | succ j =>
        right
        exact ⟨j, by omega, by simpa using hi⟩

theorem length_absentAt (bs : List Bool) :
    ∀ start, (absentAt start bs).length = bs.count false := by
  induction bs with
  | nil => intro start; simp [absentAt]
  | cons b rest ih =>
    intro start
    cases b <;> simp [absentAt, ih, List.count_cons]

theorem probeResults_ticksFor (bs : List Bool) : probeResults (ticksFor bs) = bs := by
  induction bs with
  | nil => rfl
  | cons b rest ih =>
    have hrest : probeResults (ticksFor rest) = rest := ih
    have hhead : probeResults (ticksFor (b :: rest)) =
        (isProcessRunning (if b then procWithTarget else procWithoutTarget)
          (TARGET_PROCESS_NAME .linux)).1 :: probeResults (ticksFor rest) := by
      cases b <;> rfl
    rw [hhead, hrest]
    cases b
    · have : (isProcessRunning procWithoutTarget (TARGET_PROCESS_NAME .linux)).1 = false := by
        decide
      simp [this]
    · have : (isProcessRunning procWithTarget (TARGET_PROCESS_NAME .linux)).1 = true := by
        decide
      simp [this]

/-- A process of a run of `main` that has not exited is inside the loop: its
events are those of `monitor`, after the `daemonize()` marker if it is the
daemon. -/
theorem main_looping_trace (os : Os) (argv : List String) (p0 : Proc)
    (ticks : List Tick) (r : Run) (hr : r ∈ main os argv p0 ticks)
    (hstatus : r.status = none) :
    r.trace = monitor r.proc.cwd 0 ticks ∨
      r.trace = (0, Event.daemonize) :: monitor r.proc.cwd 0 ticks := by
  by_cases h : get_executable_path os argv.head? = ""
  · rw [main_of_fatal os argv p0 ticks h, List.mem_singleton] at hr
    subst hr
    simp [fatalRun] at hstatus
  · cases hd : wantsDaemon argv with
    | true =>
      rw [main_of_daemon os argv p0 ticks h hd, List.mem_map] at hr
      obtain ⟨d, _, rfl⟩ := hr
      cases d with
      | exited p status => simp [afterDaemonize] at hstatus
      | returned p => exact Or.inr rfl
    | false =>
      rw [main_of_foreground os argv p0 ticks h hd, List.mem_singleton] at hr
      subst hr
      exact Or.inl rfl

/-- A process of a run of `main` that has exited never ran the loop body. -/
theorem main_exited_trace (os : Os) (argv : List String) (p0 : Proc)
    (ticks : List Tick) (r : Run) (hr : r ∈ main os argv p0 ticks)
    (hstatus : r.status ≠ none) :
    r.trace = [(0, Event.stderr fatalMessage)] ∨ r.trace = [(0, Event.daemonize)] := by
  by_cases h : get_executable_path os argv.head? = ""
  · rw [main_of_fatal os argv p0 ticks h, List.mem_singleton] at hr
    subst hr
    exact Or.inl rfl
  · cases hd : wantsDaemon argv with
    | true =>
      rw [main_of_daemon os argv p0 ticks h hd, List.mem_map] at hr
      obtain ⟨d, _, rfl⟩ := hr
      cases d with
      | exited p status => exact Or.inr rfl
      | returned p => simp [afterDaemonize] at hstatus
    | false =>
      rw [main_of_foreground os argv p0 ticks h hd, List.mem_singleton] at hr
      subst hr
      simp [foregroundRun] at hstatus

theorem launchIterations_cons_daemonize (trace : List (Nat × Event)) :
    launchIterations ((0, Event.daemonize) :: trace) = launchIterations trace := by
  simp [launchIterations, timesOf]

/-- C2: in the loop of `main`, `startProcess` is called in exactly the
iterations whose probe answered absent: the launch iterations of a run are
the positions of the `false` probe results, iteration `i + 1` launches if and
only if the probe result at index `i` is `false`, and after `N` iterations
the number of launches is the number of `false` among the first `N` results.
Every sequence of probe results arises from some sequence of `/proc` states,
and for absent, absent, present, absent the launches are in iterations 1, 2
and 4. -/
theorem launches_match_absent_probes (os : Os) (argv : List String) (p0 : Proc)
    (cwd : String) (ticks : List Tick) (N : Nat) :
    launchIterations (monitor cwd 0 ticks) = absentAt 1 (probeResults ticks) ∧
      (∀ i, i + 1 ∈ launchIterations (monitor cwd 0 ticks) ↔
        (probeResults ticks)[i]? = some false) ∧
      (launchIterations (monitor cwd 0 (ticks.take N))).length =
        ((probeResults ticks).take N).count false ∧
      (∀ r ∈ main os argv p0 ticks, r.status = none →
        launchIterations r.trace = absentAt 1 (probeResults ticks)) ∧
      (∀ bs : List Bool, ∃ ticks', probeResults ticks' = bs) ∧
      probeResults scenarioTicks = [false, false, true, false] ∧
      launchIterations (monitor cwd 0 scenarioTicks) = [1, 2, 4] ∧
      (launchIterations (monitor cwd 0 scenarioTicks)).length = 3 := by
  have hgen : ∀ tk : List Tick,
      launchIterations (monitor cwd 0 tk) = absentAt 1 (probeResults tk) := by
    intro tk
    have h := launchIterations_monitor cwd tk 0
    simpa using h
  have hgen' : ∀ (dir : String) (tk : List Tick),
      launchIterations (monitor dir 0 tk) = absentAt 1 (probeResults tk) := by
    intro dir tk
    have h := launchIterations_monitor dir tk 0
    simpa using h
  have hscen : absentAt 1 (probeResults scenarioTicks) = [1, 2, 4] := by decide
  refine ⟨hgen ticks, ?_, ?_, ?_, fun bs => ⟨ticksFor bs, probeResults_ticksFor bs⟩,
    by decide, ?_, ?_⟩
  · intro i
    rw [hgen ticks, mem_absentAt]
    constructor
    · rintro ⟨j, hj, hfalse⟩
      have : i = j := by omega
      subst this
      exact hfalse
    · intro hfalse
      exact ⟨i, by omega, hfalse⟩
  · rw [hgen (ticks.take N), length_absentAt]
    simp [probeResults, List.map_take]
  · intro r hr hstatus
    rcases main_looping_trace os argv p0 ticks r hr hstatus with h | h
    · rw [h, hgen']
    · rw [h, launchIterations_cons_daemonize, hgen']
  · rw [hgen scenarioTicks, hscen]
  · rw [hgen scenarioTicks, hscen]
    rfl

/-! ### Fatal failures of `daemonize()` -/

/-- C9: a failure of the first `fork`, of `setsid` or of the second `fork`
ends the failing process with status 1 and lets no process return from
`daemonize()`, so no process of that run of `main` enters the loop; the
original parent and the intermediate parent exit with status 0; and when all
three calls succeed exactly one process, the grandchild, returns. -/
theorem daemonize_outcomes (env : DaemonEnv) (p : Proc) :
    (env.fork1 = none → daemonize env p = [Daemonized.exited p 1]) ∧
      (∀ pid1, env.fork1 = some pid1 → env.setsidOk = false →
        daemonize env p =
          [Daemonized.exited p 0, Daemonized.exited (forkChild p pid1) 1]) ∧
      (∀ pid1, env.fork1 = some pid1 → env.setsidOk = true → env.fork2 = none →
        daemonize env p =
          [Daemonized.exited p 0, Daemonized.exited (sessionLeader p pid1) 1]) ∧
      (∀ pid1 pid2, env.fork1 = some pid1 → env.setsidOk = true →
        env.fork2 = some pid2 →
        daemonize env p =
          [Daemonized.exited p 0, Daemonized.exited (sessionLeader p pid1) 0,
            Daemonized.returned (daemonProc env (sessionLeader p pid1) pid2)] ∧
        (sessionLeader p pid1).pid = pid1 ∧
        (daemonProc env (sessionLeader p pid1) pid2).pid = pid2) ∧
      ((∃ q, Daemonized.returned q ∈ daemonize env p) ↔
        env.fork1.isSome = true ∧ env.setsidOk = true ∧ env.fork2.isSome = true) ∧
      (¬(env.fork1.isSome = true ∧ env.setsidOk = true ∧ env.fork2.isSome = true) →
        ∀ (os : Os) (argv : List String) (ticks : List Tick),
          os.daemon = env → get_executable_path os argv.head? ≠ "" →
          wantsDaemon argv = true →
          ∀ r ∈ main os argv p ticks,
            r.status ≠ none ∧ r.trace = [(0, Event.daemonize)]) := by
  refine ⟨?_, ?_, ?_, ?_, exists_returned_iff env p, ?_⟩
  · intro h
    simp [daemonize, h]
  · intro pid1 h1 h2
    simp [daemonize, h1, h2]
  · intro pid1 h1 h2 h3
    simp [daemonize, h1, h2, h3]
  · intro pid1 pid2 h1 h2 h3
    exact ⟨by simp [daemonize, h1, h2, h3], rfl, rfl⟩
  · intro hfail os argv ticks henv hpath hd r hr
    rw [main_of_daemon os argv p ticks hpath hd, List.mem_map, henv] at hr
    obtain ⟨d, hmem, rfl⟩ := hr
    cases d with
    | exited q status => exact ⟨by simp [afterDaemonize], rfl⟩
    | returned q => exact absurd ((exists_returned_iff env p).mp ⟨q, hmem⟩) hfail

/-- C9, at a concrete environment: with all three calls succeeding, the
shell's child 101 and the shell itself exit with 0 and process 102 returns. -/
theorem daemonize_outcomes_witness :
    daemonize goodDaemonEnv shellProc =
        [Daemonized.exited shellProc 0,
          Daemonized.exited (sessionLeader shellProc 101) 0,
          Daemonized.returned
            (daemonProc goodDaemonEnv (sessionLeader shellProc 101) 102)] ∧
      (sessionLeader shellProc 101).pid = 101 ∧
      (daemonProc goodDaemonEnv (sessionLeader shellProc 101) 102).pid = 102 :=
  (daemonize_outcomes goodDaemonEnv shellProc).2.2.2.1 101 102 rfl rfl rfl

/-! ### Launch failures -/

/-- C3: `startProcess` runs to its end whatever `system` returns, every
iteration of the loop reaches its `sleep_for` of `CHECK_INTERVAL_SECONDS`
(5 s), and no process of a run of `main` that called `startProcess` has
exited. With the target always absent and `system` always failing, the `K`
iterations each probe, call `startProcess`, run the command, report the
failure and sleep, at the times 0, 5, ..., 5 (K - 1), all before `K * 5`. -/
theorem launch_failure_keeps_looping (os : Os) (argv : List String) (p0 : Proc)
    (cwd : String) (ticks : List Tick) :
    (∀ ret : Int, ∃ report,
        startProcess "gn1" ret cwd =
          [Event.stdout "Process gn1 is not running. Starting it...",
            Event.stdout "Process gn1 is not running. Starting it...",
            Event.system "./gn1 &" cwd, report]) ∧
      timesOf (Event.sleep_for 5) (monitor cwd 0 ticks) =
        (List.range ticks.length).map (fun i => CHECK_INTERVAL_SECONDS * i) ∧
      (∀ r ∈ main os argv p0 ticks,
        (∃ e ∈ r.trace, e.2 = Event.startProcess "gn1") → r.status = none) ∧
      ((∀ tick ∈ ticks, (isProcessRunning tick.proc "gn1").1 = false ∧
            tick.systemRet = -1) →
        timesOf (Event.isProcessRunning "gn1" false) (monitor cwd 0 ticks) =
            (List.range ticks.length).map (fun i => CHECK_INTERVAL_SECONDS * i) ∧
          timesOf (Event.startProcess "gn1") (monitor cwd 0 ticks) =
            (List.range ticks.length).map (fun i => CHECK_INTERVAL_SECONDS * i) ∧
          timesOf (Event.system "./gn1 &" cwd) (monitor cwd 0 ticks) =
            (List.range ticks.length).map (fun i => CHECK_INTERVAL_SECONDS * i) ∧
          timesOf (Event.stderr "system() failed for gn1") (monitor cwd 0 ticks) =
            (List.range ticks.length).map (fun i => CHECK_INTERVAL_SECONDS * i) ∧
          (timesOf (Event.startProcess "gn1") (monitor cwd 0 ticks)).length =
            ticks.length ∧
          ∀ t ∈ timesOf (Event.startProcess "gn1") (monitor cwd 0 ticks),
            t < ticks.length * CHECK_INTERVAL_SECONDS) := by
  have hzero : ∀ ev, (∀ tick ∈ ticks, ∀ clock,
      timesOf ev (loopIteration cwd clock tick) = [clock]) →
      timesOf ev (monitor cwd 0 ticks) =
        (List.range ticks.length).map (fun i => CHECK_INTERVAL_SECONDS * i) := by
    intro ev hall
    have h := timesOf_monitor_every ev cwd ticks hall 0
    simpa using h
  refine ⟨?_, ?_, ?_, ?_⟩
  · intro ret
    by_cases hret : ret = -1
    · exact ⟨Event.stderr "system() failed for gn1", by
        simp only [startProcess, hret, if_true]; rfl⟩
    · exact ⟨Event.stdout "Process gn1 started.", by
        simp only [startProcess, hret, if_false]; rfl⟩
  · exact hzero _ (fun tick _ clock => timesOf_sleep_loopIteration cwd clock tick)
  · rintro r hr ⟨e, he, hev⟩
    by_contra hstatus
    rcases main_exited_trace os argv p0 ticks r hr hstatus with h | h <;>
      rw [h, List.mem_singleton] at he <;> subst he <;> simp at hev
  · intro hall
    have hstart := hzero (Event.startProcess "gn1") (fun tick ht clock => by
      rw [timesOf_startProcess_loopIteration, (hall tick ht).1]; simp)
    refine ⟨?_, hstart, ?_, ?_, ?_, ?_⟩
    · exact hzero _ (fun tick ht clock => by
        rw [timesOf_absent_loopIteration, (hall tick ht).1]; simp)
    · exact hzero _ (fun tick ht clock => by
        rw [timesOf_system_loopIteration, (hall tick ht).1]; simp)
    · exact hzero _ (fun tick ht clock => by
        rw [timesOf_failure_loopIteration, (hall tick ht).1, (hall tick ht).2]; simp)
    · rw [hstart]; simp
    · intro t ht
      rw [hstart, List.mem_map] at ht
      obtain ⟨i, hi, rfl⟩ := ht
      rw [List.mem_range] at hi
      simp only [CHECK_INTERVAL_SECONDS]
      omega

/-- C3, for three iterations without the target in which `system` returns
`-1`: three launches, at 0, 5 and 10 seconds, all before 15. -/
theorem launch_failure_keeps_looping_witness :
    timesOf (Event.startProcess "gn1") (monitor "/" 0 failingTicks) =
        (List.range failingTicks.length).map (fun i => CHECK_INTERVAL_SECONDS * i) ∧
      (List.range failingTicks.length).map (fun i => CHECK_INTERVAL_SECONDS * i) =
        [0, 5, 10] ∧
      failingTicks.length * CHECK_INTERVAL_SECONDS = 15 :=
  ⟨((launch_failure_keeps_looping sampleOs ["daemon"] shellProc "/" failingTicks).2.2.2
    (by decide)).2.1, by decide, by decide⟩

end Daemon
